import Mathlib

/-!
Verification of the layer-3 network script (`layer3_network_code.py`).

The script declares a static Mininet topology (3 routers, 3 LAN switches,
6 hosts, one backbone switch), a `LinuxRouter` node class that toggles the
IP-forwarding sysctl around the base node lifecycle, and a `run` routine
that starts the network, prints an address map, runs `pingAll` and stops
the network.  Below we shallowly embed the declared topology, the router
lifecycle, the `run` trace, and (modelled from the spec, since the
emulation engine is an external framework) IP routing semantics and the
topology-validation contract.
-/

/-- An IPv4 address as a natural number built from four octets. -/
def ipv4 (a b c d : Nat) : Nat := ((a * 256 + b) * 256 + c) * 256 + d

/-- An address with prefix length, e.g. `20.10.172.130/26`. -/
structure CIDR where
  ip : Nat
  prefixLen : Nat
deriving DecidableEq, Repr

/-- The network part of an address under a prefix length (upper bits). -/
def netPart (ip : Nat) (len : Nat) : Nat := ip / 2 ^ (32 - len)

/-- Whether `ip` lies in the subnet described by `c`. -/
def inSubnet (ip : Nat) (c : CIDR) : Bool :=
  netPart ip c.prefixLen = netPart c.ip c.prefixLen

/-- Node roles in the topology (mirrors the Mininet calls used:
`addNode` with `cls=LinuxRouter`, `addSwitch`, `addHost`). -/
inductive Role where
  | router
  | host
  | switch
deriving DecidableEq, Repr

/-- A declared node: name, role, the optional `ip=` argument and the
optional `defaultRoute='via g'` argument (stored as the gateway address). -/
structure NodeDecl where
  name : String
  role : Role
  ip : Option CIDR
  defaultRoute : Option Nat
deriving DecidableEq, Repr

/-- A declared link: the two endpoint names, the optional `intfName2=`
argument and the optional `params2={'ip': ...}` address for endpoint 2. -/
structure LinkDecl where
  node1 : String
  node2 : String
  intfName2 : Option String
  params2ip : Option CIDR
deriving DecidableEq, Repr

/-- A topology under construction: the declared nodes and links, in
declaration order. -/
structure Topo where
  nodes : List NodeDecl
  links : List LinkDecl
deriving DecidableEq, Repr

/-- The empty topology that `build` starts from. -/
def Topo.empty : Topo := ⟨[], []⟩

/-- `self.addNode(name, cls=LinuxRouter, ip=...)`: registers a router
node with a node-level address. -/
def Topo.addNode (t : Topo) (name : String) (ip : CIDR) : Topo :=
  { t with nodes := t.nodes ++ [⟨name, Role.router, some ip, none⟩] }

/-- `self.addSwitch(name)`: registers a switch node. -/
def Topo.addSwitch (t : Topo) (name : String) : Topo :=
  { t with nodes := t.nodes ++ [⟨name, Role.switch, none, none⟩] }

/-- `self.addHost(name, ip=..., defaultRoute='via g')`: registers a host
with an address and a default route. -/
def Topo.addHost (t : Topo) (name : String) (ip : CIDR) (gw : Nat) : Topo :=
  { t with nodes := t.nodes ++ [⟨name, Role.host, some ip, some gw⟩] }

/-- `self.addLink(a, b, intfName2=..., params2={'ip': ...})`: registers an
undirected link, with the optional interface name and address for the
second endpoint. -/
def Topo.addLink (t : Topo) (a b : String) (intf2 : Option String)
    (ip2 : Option CIDR) : Topo :=
  { t with links := t.links ++ [⟨a, b, intf2, ip2⟩] }

/-- `NetworkTopo.build`, transcribed call by call from the source:
three `LinuxRouter` nodes on the backbone, four switches, six hosts with
LAN addresses and default routes, three backbone links, three
router-to-LAN links and six host links. -/
def NetworkTopo.build : Topo :=
  ((((((((((((((((((((((((Topo.empty.addNode "rA" ⟨ipv4 20 10 100 1, 24⟩
    ).addNode "rB" ⟨ipv4 20 10 100 2, 24⟩
    ).addNode "rC" ⟨ipv4 20 10 100 3, 24⟩
    ).addSwitch "s1"
    ).addSwitch "s2"
    ).addSwitch "s3"
    ).addSwitch "s4"
    ).addHost "hA1" ⟨ipv4 20 10 172 130, 26⟩ (ipv4 20 10 172 129)
    ).addHost "hA2" ⟨ipv4 20 10 172 131, 26⟩ (ipv4 20 10 172 129)
    ).addHost "hB1" ⟨ipv4 20 10 172 2, 25⟩ (ipv4 20 10 172 1)
    ).addHost "hB2" ⟨ipv4 20 10 172 3, 25⟩ (ipv4 20 10 172 1)
    ).addHost "hC1" ⟨ipv4 20 10 172 194, 27⟩ (ipv4 20 10 172 193)
    ).addHost "hC2" ⟨ipv4 20 10 172 195, 27⟩ (ipv4 20 10 172 193)
    ).addLink "s4" "rA" (some "rA-eth1") (some ⟨ipv4 20 10 100 1, 24⟩)
    ).addLink "s4" "rB" (some "rB-eth1") (some ⟨ipv4 20 10 100 2, 24⟩)
    ).addLink "s4" "rC" (some "rC-eth1") (some ⟨ipv4 20 10 100 3, 24⟩)
    ).addLink "s1" "rA" (some "rA-eth0") (some ⟨ipv4 20 10 172 129, 26⟩)
    ).addLink "s2" "rB" (some "rB-eth0") (some ⟨ipv4 20 10 172 1, 25⟩)
    ).addLink "s3" "rC" (some "rC-eth0") (some ⟨ipv4 20 10 172 193, 27⟩)
    ).addLink "hA1" "s1" none none
    ).addLink "hA2" "s1" none none
    ).addLink "hB1" "s2" none none
    ).addLink "hB2" "s2" none none
    ).addLink "hC1" "s3" none none
    ).addLink "hC2" "s3" none none

/-- Look up a declared node by name. -/
def Topo.findNode (t : Topo) (n : String) : Option NodeDecl :=
  t.nodes.find? (fun d => d.name = n)

/-- The role of a declared node (`none` if undeclared). -/
def Topo.roleOf (t : Topo) (n : String) : Option Role :=
  (t.findNode n).map (fun d => d.role)

/-- Whether a name is a declared switch. -/
def Topo.isSwitchNode (t : Topo) (n : String) : Bool :=
  t.roleOf n = some Role.switch

/-- The node-level `ip=` address of a declared node. -/
def Topo.nodeIp (t : Topo) (n : String) : Option CIDR :=
  (t.findNode n).bind (fun d => d.ip)

/-- The `defaultRoute` gateway of a declared node. -/
def Topo.nodeGw (t : Topo) (n : String) : Option Nat :=
  (t.findNode n).bind (fun d => d.defaultRoute)

/-! ## LinuxRouter lifecycle

`LinuxRouter.config` calls the base `Node.config` and then runs
`sysctl net.ipv4.ip_forward=1`; `LinuxRouter.terminate` runs
`sysctl net.ipv4.ip_forward=0` and then the base `Node.terminate`.
We embed this as a state transformer that also emits a trace of the
observable steps, in the order the code performs them.  The sysctl
commands are total (setting the flag to a value it already has is a
no-op), so the embedded `terminate` is a total function: it cannot fail. -/

/-- Observable steps of the router lifecycle. -/
inductive RouterEvent where
  | applyBaseConfig
  | setForward (enabled : Bool)
  | applyBaseTerminate
deriving DecidableEq, Repr

/-- Namespace-level state of one router node. -/
structure RouterState where
  baseConfigured : Bool
  ipForward : Bool
  baseTerminated : Bool
deriving DecidableEq, Repr

/-- A fresh, never-activated node: IP forwarding disabled by default. -/
def RouterState.fresh : RouterState := ⟨false, false, false⟩

/-- Base `Node.config`: applies interface/address configuration. -/
def Node.config (s : RouterState) : RouterState × List RouterEvent :=
  ({ s with baseConfigured := true }, [RouterEvent.applyBaseConfig])

/-- `self.cmd('sysctl net.ipv4.ip_forward=v')`: sets the forwarding flag. -/
def cmdSysctlForward (v : Bool) (s : RouterState) :
    RouterState × List RouterEvent :=
  ({ s with ipForward := v }, [RouterEvent.setForward v])

/-- Base `Node.terminate`: tears the node down. -/
def Node.terminate (s : RouterState) : RouterState × List RouterEvent :=
  ({ s with baseTerminated := true }, [RouterEvent.applyBaseTerminate])

/-- `LinuxRouter.config`: base config first, then enable forwarding. -/
def LinuxRouter.config (s : RouterState) : RouterState × List RouterEvent :=
  let b := Node.config s
  let c := cmdSysctlForward true b.1
  (c.1, b.2 ++ c.2)

/-- `LinuxRouter.terminate`: disable forwarding, then base terminate. -/
def LinuxRouter.terminate (s : RouterState) :
    RouterState × List RouterEvent :=
  let c := cmdSysctlForward false s
  let b := Node.terminate c.1
  (b.1, c.2 ++ b.2)

/-! ## Derived views of the declared topology -/

/-- A realized interface: the non-switch endpoint of a link, the address
it is assigned, and the switch segment it attaches to.  The address is the
link's `params2` address when given (router links), otherwise the
node-level `ip=` address of the endpoint (host links), mirroring how the
engine applies addressing. -/
structure Intf where
  node : String
  addr : CIDR
  seg : String
deriving DecidableEq, Repr

/-- All addressed interfaces of the topology, one per link endpoint that
is not a switch and has an address to apply. -/
def Topo.intfs (t : Topo) : List Intf :=
  t.links.foldr (fun l acc =>
    (if t.isSwitchNode l.node1 && !(t.isSwitchNode l.node2) then
      match (match l.params2ip with
             | some c => some c
             | none => t.nodeIp l.node2) with
      | some c => [⟨l.node2, c, l.node1⟩]
      | none => []
    else if !(t.isSwitchNode l.node1) && t.isSwitchNode l.node2 then
      match t.nodeIp l.node1 with
      | some c => [⟨l.node1, c, l.node2⟩]
      | none => []
    else []) ++ acc) []

/-- The addresses assigned on one switch segment. -/
def Topo.segmentAddrs (t : Topo) (sw : String) : List CIDR :=
  (t.intfs.filter (fun i => i.seg = sw)).map (fun i => i.addr)

/-- All interface addresses in the topology (the `ip` part only). -/
def Topo.intfAddrs (t : Topo) : List Nat :=
  t.intfs.map (fun i => i.addr.ip)

/-- The neighbors of a node: every node it shares a link with. -/
def Topo.neighbors (t : Topo) (n : String) : List String :=
  t.links.foldr (fun l acc =>
    (if l.node1 = n then [l.node2]
     else if l.node2 = n then [l.node1]
     else []) ++ acc) []

/-- The names of the declared nodes with a given role. -/
def Topo.namesOf (t : Topo) (r : Role) : List String :=
  (t.nodes.filter (fun d => d.role = r)).map (fun d => d.name)

/-! ## Reachability semantics

Modelled from the spec: packet delivery and `pingAll` are performed by the
external emulation engine and the OS networking stack, which are not part
of this repository.  The spec describes them as standard IP behavior: a
node delivers directly on a connected subnet, hosts send other traffic to
their configured default gateway, and a node relays packets not addressed
to itself only when IP forwarding is enabled for it (§2, §4.1, glossary);
`pingAll` "executes all-pairs reachability checks and reports a count of
failed pairs" (§6). -/

/-- Modelled from the spec: whether a node relays packets that are not
addressed to itself — true exactly for `LinuxRouter` nodes, which enable
the forwarding sysctl on activation (§4.1). -/
def Topo.forwardingOn (t : Topo) (n : String) : Bool :=
  t.roleOf n = some Role.router

/-- Modelled from the spec: one-way IP delivery of a packet currently at
node `cur` addressed to `dst`.  The packet is delivered if `cur` owns
`dst`; otherwise `cur` puts it on a directly connected subnet containing
`dst` (delivered iff some interface on that segment owns `dst`), or sends
it to its default gateway, which relays only if forwarding is enabled for
it; with no matching route the packet is dropped. -/
def Topo.deliver (t : Topo) : Nat → String → Nat → Bool
  | 0, _, _ => false
  | fuel + 1, cur, dst =>
    let is := t.intfs
    if is.any (fun i => i.node = cur && i.addr.ip = dst) then true
    else
      match is.find? (fun i => i.node = cur && inSubnet dst i.addr) with
      | some i =>
        match is.find? (fun j => j.seg = i.seg && j.addr.ip = dst) with
        | some _ => true
        | none => false
      | none =>
        match t.nodeGw cur with
        | some g =>
          match is.find? (fun i => i.node = cur && inSubnet g i.addr) with
          | some i =>
            match is.find? (fun j => j.seg = i.seg && j.addr.ip = g) with
            | some j => t.forwardingOn j.node && t.deliver fuel j.node dst
            | none => false
          | none => false
        | none => false

/-- The node-level address of a host, as a bare `Nat` (0 if absent). -/
def Topo.hostIp (t : Topo) (n : String) : Nat :=
  match t.nodeIp n with
  | some c => c.ip
  | none => 0

/-- Modelled from the spec: one `pingAll` probe between an ordered pair of
hosts succeeds when the echo request reaches `b` and the echo reply
reaches `a` back. -/
def Topo.pingOk (t : Topo) (a b : String) : Bool :=
  t.deliver 4 a (t.hostIp b) && t.deliver 4 b (t.hostIp a)

/-- The ordered pairs of distinct declared hosts, in declaration order. -/
def Topo.hostPairs (t : Topo) : List (String × String) :=
  (t.namesOf Role.host).flatMap (fun a =>
    ((t.namesOf Role.host).filter (fun b => b ≠ a)).map (fun b => (a, b)))

/-- Modelled from the spec: the count of failed pairs that `pingAll`
reports over the declared hosts. -/
def Topo.pingAllFailed (t : Topo) : Nat :=
  (t.hostPairs.filter (fun p => !(t.pingOk p.1 p.2))).length

/-- Whether two hosts sit on a common switch segment (same LAN). -/
def Topo.sameLan (t : Topo) (a b : String) : Bool :=
  t.intfs.any (fun i => i.node = a &&
    t.intfs.any (fun j => j.node = b && j.seg = i.seg))

/-! ## The `run` routine and the module entry guard

`run()` performs, in order: topology construction, engine construction,
an info line, `net.start()`, fourteen info lines printing the address
map, one more info line, `net.pingAll()`, an info line and `net.stop()`.
The `__main__` guard calls `setLogLevel('info')` and then `run()`.
We embed both as event traces; the trace is parameterized by the number
of failed pairs the probe reports, which the code ignores. -/

/-- Observable steps of the orchestration script. -/
inductive RunEvent where
  | setVerbosity
  | buildTopo
  | constructNet
  | infoLine (s : String)
  | startNet
  | pingAllProbe (failed : Nat)
  | stopNet
deriving DecidableEq, Repr

/-- The trace of `run()`, transcribed statement by statement. -/
def run (failed : Nat) : List RunEvent :=
  [RunEvent.buildTopo,
   RunEvent.constructNet,
   RunEvent.infoLine "Starting network",
   RunEvent.startNet,
   RunEvent.infoLine "Network configuration:",
   RunEvent.infoLine "LAN A: 20.10.172.128/26 (Router A at 20.10.172.129)",
   RunEvent.infoLine "  hA1: 20.10.172.130",
   RunEvent.infoLine "  hA2: 20.10.172.131",
   RunEvent.infoLine "LAN B: 20.10.172.0/25 (Router B at 20.10.172.1)",
   RunEvent.infoLine "  hB1: 20.10.172.2",
   RunEvent.infoLine "  hB2: 20.10.172.3",
   RunEvent.infoLine "LAN C: 20.10.172.192/27 (Router C at 20.10.172.193)",
   RunEvent.infoLine "  hC1: 20.10.172.194",
   RunEvent.infoLine "  hC2: 20.10.172.195",
   RunEvent.infoLine "Router interconnect: 20.10.100.0/24",
   RunEvent.infoLine "  rA: 20.10.100.1",
   RunEvent.infoLine "  rB: 20.10.100.2",
   RunEvent.infoLine "  rC: 20.10.100.3",
   RunEvent.infoLine "Testing connectivity within each LAN using pingall",
   RunEvent.pingAllProbe failed,
   RunEvent.infoLine "*** Stopping network",
   RunEvent.stopNet]

/-- The `if __name__ == '__main__'` guard: set the log level, then run. -/
def mainEntry (failed : Nat) : List RunEvent :=
  RunEvent.setVerbosity :: run failed

/-! ## Topology validation

Modelled from the spec: the repository's `NetworkTopo.build` only declares
nodes and links; the validation the spec ascribes to `build()` (§4.2) —
no dangling link endpoints, no conflicting addresses on one interface,
subnet consistency per LAN segment, failure as a
`TopologyValidationError` enumerating every violation found — is not
implemented under `src/` (it is attributed to the descriptor abstraction
realized by the external framework).  The definitions below follow the
spec's words. -/

/-- One violation of the §3 invariants. -/
inductive Violation where
  | danglingRef (name : String)
  | conflictingAddress (node : String) (intf : Option String)
  | subnetMismatch (seg : String)
deriving DecidableEq, Repr

/-- The error value carrying every violation found. -/
structure TopologyValidationError where
  violations : List Violation
deriving DecidableEq, Repr

/-- The unordered pairs of elements of a list (each pair once). -/
def pairsOf {α : Type} : List α → List (α × α)
  | [] => []
  | x :: xs => (xs.map (fun y => (x, y))) ++ pairsOf xs

/-- The names of the declared nodes. -/
def Topo.nodeNames (t : Topo) : List String :=
  t.nodes.map (fun d => d.name)

/-- Modelled from the spec: link endpoints that reference no declared
node. -/
def Topo.danglingViolations (t : Topo) : List Violation :=
  t.links.flatMap (fun l =>
    (if t.nodeNames.contains l.node1 then [] else [Violation.danglingRef l.node1]) ++
    (if t.nodeNames.contains l.node2 then [] else [Violation.danglingRef l.node2]))

/-- The per-interface address assignments made by links
(`params2` applies to endpoint 2's interface `intfName2`). -/
def Topo.linkAssignments (t : Topo) : List (String × Option String × CIDR) :=
  t.links.filterMap (fun l => l.params2ip.map (fun c => (l.node2, l.intfName2, c)))

/-- Modelled from the spec: two links assigning different addresses to
one and the same interface. -/
def Topo.conflictViolations (t : Topo) : List Violation :=
  (pairsOf t.linkAssignments).filterMap (fun p =>
    if p.1.1 = p.2.1 && p.1.2.1 = p.2.2.1 && !(p.1.2.2 = p.2.2.2) then
      some (Violation.conflictingAddress p.1.1 p.1.2.1)
    else none)

/-- Modelled from the spec: two addresses on one switch segment drawn
from different prefix ranges. -/
def Topo.subnetViolations (t : Topo) : List Violation :=
  (t.namesOf Role.switch).flatMap (fun sw =>
    (pairsOf (t.segmentAddrs sw)).filterMap (fun p =>
      if p.1.prefixLen = p.2.prefixLen &&
         netPart p.1.ip p.1.prefixLen = netPart p.2.ip p.2.prefixLen then
        none
      else some (Violation.subnetMismatch sw)))

/-- Modelled from the spec: every violation of the §3 invariants, in
check order; `build()` must report all of them, not only the first. -/
def violationsOf (t : Topo) : List Violation :=
  t.danglingViolations ++ t.conflictViolations ++ t.subnetViolations

/-- Modelled from the spec: `TopologyDescriptor.build()` validates the §3
invariants and returns the (immutable) topology value, or fails with a
`TopologyValidationError` enumerating all violations found. -/
def TopologyDescriptor.build (t : Topo) : Except TopologyValidationError Topo :=
  if violationsOf t = [] then Except.ok t
  else Except.error ⟨violationsOf t⟩

/-- A deliberately ill-formed topology used to show that validation
reports several violations at once: one link references the undeclared
node `ghost`, and two links assign different addresses to the interface
`r1-eth0` of `r1`. -/
def badTopo : Topo :=
  ((((Topo.empty.addNode "r1" ⟨ipv4 10 0 0 1, 24⟩
    ).addSwitch "s9"
    ).addLink "s9" "r1" (some "r1-eth0") (some ⟨ipv4 10 0 0 1, 24⟩)
    ).addLink "s9" "ghost" none none
    ).addLink "s9" "r1" (some "r1-eth0") (some ⟨ipv4 10 0 0 2, 24⟩)

/-! ## Theorems -/

set_option maxRecDepth 10000

/-- Claim C1, counterexample: as stated the claim is false — with the
addressing plan of §6, `pingAll()` over the 6 declared hosts does not
report zero failed pairs, because the routers are configured with no
route (static or default) towards the other LANs, so a packet handed to
a LAN gateway for a remote LAN is dropped there. -/
theorem pingAll_zero_failed_refuted :
    ¬ (NetworkTopo.build.pingAllFailed = 0) := by decide

/-- Claim C1, amended: `pingAll()` over the 6 declared hosts probes 30
ordered pairs and reports exactly 24 failed pairs; an ordered pair
succeeds precisely when the two hosts sit on the same LAN segment.  In
particular the pair `(hA1, hB1)` fails. -/
theorem pingAll_fails_exactly_interlan_pairs :
    NetworkTopo.build.pingAllFailed = 24 ∧
    NetworkTopo.build.hostPairs.length = 30 ∧
    NetworkTopo.build.hostPairs.all
      (fun p => NetworkTopo.build.pingOk p.1 p.2 == NetworkTopo.build.sameLan p.1 p.2) = true ∧
    NetworkTopo.build.pingOk "hA1" "hB1" = false := by decide

/-- Claim C2: for every topology under construction, `build()` (modelled
from the spec) either returns the topology value unchanged with no
invariant violated, or fails with a `TopologyValidationError` that
carries every violation found.  The declared topology validates cleanly,
and the ill-formed `badTopo` is rejected with both of its violations
enumerated, not only the first. -/
theorem topologyDescriptor_build_validates_enumerating_all :
    (∀ t : Topo,
      (TopologyDescriptor.build t = Except.ok t ∧ violationsOf t = []) ∨
      (TopologyDescriptor.build t = Except.error ⟨violationsOf t⟩ ∧
        violationsOf t ≠ [])) ∧
    TopologyDescriptor.build NetworkTopo.build = Except.ok NetworkTopo.build ∧
    TopologyDescriptor.build badTopo =
      Except.error ⟨[Violation.danglingRef "ghost",
                     Violation.conflictingAddress "r1" (some "r1-eth0")]⟩ := by
  refine ⟨fun t => ?_, rfl, rfl⟩
  by_cases h : violationsOf t = []
  · exact Or.inl ⟨by simp [TopologyDescriptor.build, h], h⟩
  · exact Or.inr ⟨by simp [TopologyDescriptor.build, h], h⟩

/-- Claim C3: in every activation (`LinuxRouter.config`), the step that
enables IP forwarding is strictly preceded in the emitted trace by the
application of the base node configuration: forwarding is never enabled
before interface/address configuration. -/
theorem linuxRouter_config_base_before_forwarding :
    ∀ (s : RouterState) (j : Nat),
      (LinuxRouter.config s).2.get? j = some (RouterEvent.setForward true) →
      ∃ i, i < j ∧
        (LinuxRouter.config s).2.get? i = some RouterEvent.applyBaseConfig := by
  intro s j h
  have htr : (LinuxRouter.config s).2 =
      [RouterEvent.applyBaseConfig, RouterEvent.setForward true] := rfl
  rw [htr] at h
  match j with
  | 0 => simp at h
  | 1 => exact ⟨0, Nat.zero_lt_one, rfl⟩
  | j + 2 => simp at h

/-- Witness for claim C3: on a fresh node, the forwarding-enable step sits
at index 1 of the activation trace and base configuration before it. -/
theorem linuxRouter_config_base_before_forwarding_witness :
    (LinuxRouter.config RouterState.fresh).2.get? 1 =
      some (RouterEvent.setForward true) ∧
    (∃ i, i < 1 ∧ (LinuxRouter.config RouterState.fresh).2.get? i =
      some RouterEvent.applyBaseConfig) :=
  ⟨rfl, linuxRouter_config_base_before_forwarding RouterState.fresh 1 rfl⟩

/-- Claim C4: from any starting state, `LinuxRouter.config` followed by
`LinuxRouter.terminate` leaves the IP-forwarding flag equal to the
pre-activation default of a fresh node, i.e. disabled. -/
theorem config_then_terminate_restores_default_forwarding :
    ∀ s : RouterState,
      ((LinuxRouter.terminate (LinuxRouter.config s).1).1).ipForward =
        RouterState.fresh.ipForward :=
  fun _ => rfl

/-- Claim C5: `LinuxRouter.terminate` invoked on any state — in
particular without a prior activation — is a total operation (the
embedding makes it a function, mirroring that the sysctl-disable command
cannot fail) that never leaves forwarding enabled, and disabling an
already-disabled forwarding flag leaves the state unchanged (a no-op). -/
theorem terminate_without_activate_safe :
    ∀ s : RouterState,
      ((LinuxRouter.terminate s).1).ipForward = false ∧
      (s.ipForward = false → (cmdSysctlForward false s).1 = s) := by
  intro s
  refine ⟨rfl, fun h => ?_⟩
  cases s
  cases h
  rfl

/-- Witness for claim C5: on a fresh (never-activated) node, terminate
leaves forwarding disabled and the disable command is a no-op. -/
theorem terminate_without_activate_safe_witness :
    ((LinuxRouter.terminate RouterState.fresh).1).ipForward = false ∧
    (cmdSysctlForward false RouterState.fresh).1 = RouterState.fresh :=
  ⟨(terminate_without_activate_safe RouterState.fresh).1,
   (terminate_without_activate_safe RouterState.fresh).2 rfl⟩

/-- Claim C6: the declared topology has exactly 3 routers, 4 switches of
which `s1`, `s2`, `s3` are LAN switches (they have host neighbors) and
`s4` is the single backbone switch (all its neighbors are routers, namely
all three), 6 hosts; each router is linked to the backbone and exactly
one LAN switch, and each host to exactly one LAN switch. -/
theorem declared_topology_shape :
    (NetworkTopo.build.namesOf Role.router).length = 3 ∧
    (NetworkTopo.build.namesOf Role.switch).length = 4 ∧
    (NetworkTopo.build.namesOf Role.host).length = 6 ∧
    ((NetworkTopo.build.namesOf Role.switch).filter
      (fun sw => (NetworkTopo.build.neighbors sw).any
        (fun n => NetworkTopo.build.roleOf n = some Role.host))) =
      ["s1", "s2", "s3"] ∧
    ((NetworkTopo.build.namesOf Role.switch).filter
      (fun sw => (NetworkTopo.build.neighbors sw).all
        (fun n => NetworkTopo.build.roleOf n = some Role.router))) = ["s4"] ∧
    NetworkTopo.build.neighbors "s4" = ["rA", "rB", "rC"] ∧
    NetworkTopo.build.neighbors "rA" = ["s4", "s1"] ∧
    NetworkTopo.build.neighbors "rB" = ["s4", "s2"] ∧
    NetworkTopo.build.neighbors "rC" = ["s4", "s3"] ∧
    NetworkTopo.build.neighbors "hA1" = ["s1"] ∧
    NetworkTopo.build.neighbors "hA2" = ["s1"] ∧
    NetworkTopo.build.neighbors "hB1" = ["s2"] ∧
    NetworkTopo.build.neighbors "hB2" = ["s2"] ∧
    NetworkTopo.build.neighbors "hC1" = ["s3"] ∧
    NetworkTopo.build.neighbors "hC2" = ["s3"] := by decide

/-- Claim C7: every address literal of the built topology matches the §6
plan — the six host addresses and prefix lengths, the three LAN gateway
interfaces of the routers, the three backbone interfaces, the six host
default routes, and each host's default route is the address of the
forwarding node on its own segment. -/
theorem declared_addressing_plan :
    NetworkTopo.build.nodeIp "hA1" = some ⟨ipv4 20 10 172 130, 26⟩ ∧
    NetworkTopo.build.nodeIp "hA2" = some ⟨ipv4 20 10 172 131, 26⟩ ∧
    NetworkTopo.build.nodeIp "hB1" = some ⟨ipv4 20 10 172 2, 25⟩ ∧
    NetworkTopo.build.nodeIp "hB2" = some ⟨ipv4 20 10 172 3, 25⟩ ∧
    NetworkTopo.build.nodeIp "hC1" = some ⟨ipv4 20 10 172 194, 27⟩ ∧
    NetworkTopo.build.nodeIp "hC2" = some ⟨ipv4 20 10 172 195, 27⟩ ∧
    (⟨"rA", ⟨ipv4 20 10 172 129, 26⟩, "s1"⟩ : Intf) ∈ NetworkTopo.build.intfs ∧
    (⟨"rB", ⟨ipv4 20 10 172 1, 25⟩, "s2"⟩ : Intf) ∈ NetworkTopo.build.intfs ∧
    (⟨"rC", ⟨ipv4 20 10 172 193, 27⟩, "s3"⟩ : Intf) ∈ NetworkTopo.build.intfs ∧
    (⟨"rA", ⟨ipv4 20 10 100 1, 24⟩, "s4"⟩ : Intf) ∈ NetworkTopo.build.intfs ∧
    (⟨"rB", ⟨ipv4 20 10 100 2, 24⟩, "s4"⟩ : Intf) ∈ NetworkTopo.build.intfs ∧
    (⟨"rC", ⟨ipv4 20 10 100 3, 24⟩, "s4"⟩ : Intf) ∈ NetworkTopo.build.intfs ∧
    NetworkTopo.build.nodeGw "hA1" = some (ipv4 20 10 172 129) ∧
    NetworkTopo.build.nodeGw "hA2" = some (ipv4 20 10 172 129) ∧
    NetworkTopo.build.nodeGw "hB1" = some (ipv4 20 10 172 1) ∧
    NetworkTopo.build.nodeGw "hB2" = some (ipv4 20 10 172 1) ∧
    NetworkTopo.build.nodeGw "hC1" = some (ipv4 20 10 172 193) ∧
    NetworkTopo.build.nodeGw "hC2" = some (ipv4 20 10 172 193) ∧
    (NetworkTopo.build.namesOf Role.host).all (fun h =>
      NetworkTopo.build.intfs.any (fun i => i.node = h &&
        NetworkTopo.build.intfs.any (fun j => j.seg = i.seg &&
          NetworkTopo.build.forwardingOn j.node &&
          NetworkTopo.build.nodeGw h == some j.addr.ip))) = true := by decide

/-- Claim C8, counterexample: the `run` routine itself does not set the
verbosity — no set-verbosity step occurs in its trace (the `__main__`
guard performs it before calling `run`). -/
theorem run_does_not_set_verbosity : RunEvent.setVerbosity ∉ run 0 := by
  decide

/-- Claim C8, amended: the module entry guard sets verbosity and then
invokes the no-argument `run` routine, whose trace — for any number of
failed ping pairs — builds the topology, starts the network, emits the
address map before the probe, and executes exactly one stop (teardown)
step, after the probe. -/
theorem entry_point_trace_order :
    ∀ failed : Nat,
      mainEntry failed = RunEvent.setVerbosity :: run failed ∧
      (run failed).get? 0 = some RunEvent.buildTopo ∧
      (run failed).get? 3 = some RunEvent.startNet ∧
      (run failed).get? 4 = some (RunEvent.infoLine "Network configuration:") ∧
      (run failed).get? 17 = some (RunEvent.infoLine "  rC: 20.10.100.3") ∧
      (run failed).get? 19 = some (RunEvent.pingAllProbe failed) ∧
      (run failed).get? 21 = some RunEvent.stopNet ∧
      (run failed).length = 22 ∧
      (run failed).count RunEvent.stopNet = 1 :=
  fun _ => ⟨rfl, rfl, rfl, rfl, rfl, rfl, rfl, rfl, rfl⟩

/-- Claim C9: each of the four switch segments carries addresses from one
common subnet — `s1` within 20.10.172.128/26, `s2` within 20.10.172.0/25,
`s3` within 20.10.172.192/27, `s4` within 20.10.100.0/24 — and on every
switch all assigned addresses agree pairwise in prefix length and network
part, so the topology has no subnet-consistency violation. -/
theorem segment_subnet_consistency :
    (NetworkTopo.build.segmentAddrs "s1").length = 3 ∧
    (NetworkTopo.build.segmentAddrs "s2").length = 3 ∧
    (NetworkTopo.build.segmentAddrs "s3").length = 3 ∧
    (NetworkTopo.build.segmentAddrs "s4").length = 3 ∧
    (NetworkTopo.build.segmentAddrs "s1").all
      (fun c => c.prefixLen = 26 && inSubnet c.ip ⟨ipv4 20 10 172 128, 26⟩) = true ∧
    (NetworkTopo.build.segmentAddrs "s2").all
      (fun c => c.prefixLen = 25 && inSubnet c.ip ⟨ipv4 20 10 172 0, 25⟩) = true ∧
    (NetworkTopo.build.segmentAddrs "s3").all
      (fun c => c.prefixLen = 27 && inSubnet c.ip ⟨ipv4 20 10 172 192, 27⟩) = true ∧
    (NetworkTopo.build.segmentAddrs "s4").all
      (fun c => c.prefixLen = 24 && inSubnet c.ip ⟨ipv4 20 10 100 0, 24⟩) = true ∧
    (NetworkTopo.build.namesOf Role.switch).all (fun sw =>
      (pairsOf (NetworkTopo.build.segmentAddrs sw)).all (fun p =>
        p.1.prefixLen = p.2.prefixLen &&
        netPart p.1.ip p.1.prefixLen = netPart p.2.ip p.2.prefixLen)) = true ∧
    NetworkTopo.build.subnetViolations = [] := by decide

/-- Claim C10: the built topology assigns exactly twelve interface
addresses (six hosts, three router LAN gateways, three router backbone
interfaces) and they are pairwise distinct: no two interfaces anywhere in
the topology carry the same address. -/
theorem interface_addresses_pairwise_distinct :
    NetworkTopo.build.intfAddrs.length = 12 ∧
    NetworkTopo.build.intfAddrs.Nodup := by decide
